import Mathlib

/-!
Shallow embedding of the sardana Tango device/controller event layer:
`SardanaDevice.set_attribute_push` / `_set_attribute_push` /
`calculate_tango_state` / `calculate_tango_status`
(src/src/sardana/tango/core/SardanaDevice.py) and
`Controller.init_device` / `Controller._get_ctrl_properties` /
`Controller.on_controller_changed` (src/src/sardana/tango/pool/Controller.py).

Bus-facing calls (`push_change_event`, `set_state`, `set_status`,
`set_change_event`, `attr.set_value_date_quality`) and lock operations are
modelled as an ordered trace of effects.  Bus calls may raise; this is
modelled by a caller-supplied oracle `fails : Effect → Bool` saying which
attempted calls raise an exception.  Python `try/finally` is embedded by
composing the finally-clause onto every exit path explicitly.
-/

namespace Sardana

/-- Tango device states (`PyTango.DevState`). -/
inductive TgState where
  | ON | OFF | FAULT | ALARM | MOVING | UNKNOWN | INIT | RUNNING | STANDBY
  deriving DecidableEq

/-- Controller-domain (sardana) states, fed to `to_tango_state`. -/
inductive CtrlState where
  | On | Off | Fault | Alarm | Moving | Unknown | Init | Running | Standby
  deriving DecidableEq

/-- Modelled from the spec: `to_tango_state` lives in
`sardana/tango/core/util.py`, which is not among the provided source files.
Spec §4.2 describes it as a fixed lookup table from controller-domain states
into the closed device-state enum (e.g. controller "MOVING" → device "MOVING",
controller fault → device "FAULT"). -/
def to_tango_state : CtrlState → TgState
  | .On => .ON
  | .Off => .OFF
  | .Fault => .FAULT
  | .Alarm => .ALARM
  | .Moving => .MOVING
  | .Unknown => .UNKNOWN
  | .Init => .INIT
  | .Running => .RUNNING
  | .Standby => .STANDBY

/-- ASCII lower-casing of one character, as Python's `str.lower()` does on
the ASCII attribute names used here. -/
def lowerChar (c : Char) : Char :=
  if 'A' ≤ c ∧ c ≤ 'Z' then Char.ofNat (c.toNat + 32) else c

/-- Python's `str.lower()` on ASCII strings (`attr.get_name().lower()`). -/
def pyLower (s : String) : String := ⟨s.data.map lowerChar⟩

/-- Tango attribute qualities (`PyTango.AttrQuality`). -/
inductive AttrQuality where
  | ATTR_VALID | ATTR_INVALID | ATTR_ALARM | ATTR_CHANGING | ATTR_WARNING
  deriving DecidableEq

/-- A Python value as it flows through the push paths: attribute payloads,
DevEncoded `(fmt, data)` pairs, and controller/tango states. -/
inductive SVal where
  | none
  | int (n : Int)
  | str (s : String)
  | bool (b : Bool)
  | encoded (fmt data : String)
  | ctrl (s : CtrlState)
  | tango (s : TgState)
  deriving DecidableEq

/-- One observable action performed against the Tango layer, in order. -/
inductive Effect where
  | acquireLock
  | releaseLock
  | pushBare (name : String)
  | pushErr (name : String) (err : String)
  | pushVal (name : String) (vargs : List SVal) (ts : Option Nat) (q : Option AttrQuality)
  | setState (v : SVal)
  | setStatus (v : SVal)
  | setChangeEvent (name : String) (detect : Bool)
  | cacheSet (name : String) (vargs : List SVal) (ts : Nat) (q : AttrQuality)
  deriving DecidableEq

/-- Whether an effect is a `push_change_event` call of any arity. -/
def Effect.isPush : Effect → Bool
  | .pushBare _ => true
  | .pushErr _ _ => true
  | .pushVal _ _ _ _ => true
  | _ => false

/-- The non-reentrant bus calls named by the locking discipline:
`push_change_event`, `set_state`, `set_status`. -/
def Effect.busFacing : Effect → Bool
  | .pushBare _ => true
  | .pushErr _ _ => true
  | .pushVal _ _ _ _ => true
  | .setState _ => true
  | .setStatus _ => true
  | _ => false

/-- The attribute's local cache slot, written by `set_value_date_quality`. -/
structure CacheEntry where
  vargs : List SVal
  ts : Nat
  q : AttrQuality
  deriving DecidableEq

/-- A Tango attribute handle (`multi_attr.get_attr_by_name` result):
its name, its check-change-criteria flag (read by
`is_check_change_criteria`, written by `set_change_event(True, detect)`),
whether its data type is `DevEncoded`, and its cache slot. -/
structure AttrInfo where
  name : String
  check_change_criteria : Bool
  encoded : Bool
  cache : Option CacheEntry
  deriving DecidableEq

/-- Result of a push-path call: the effect trace, the attribute state on
exit, and whether an exception propagated to the caller. -/
structure BOut where
  trace : List Effect
  attr : AttrInfo
  raised : Bool
  deriving DecidableEq

/-- Body of `SardanaDevice._set_attribute_push` after the error branch:
the state/status special cases and the generic value/cache branch. -/
def pushMain (fails : Effect → Bool) (now : Nat) (attr : AttrInfo)
    (value : SVal) (timestamp : Option Nat) (quality : Option AttrQuality)
    (priority : Int) : BOut :=
  if pyLower attr.name = "state" then
    if fails (Effect.setState value) then
      { trace := [Effect.setState value], attr := attr, raised := true }
    else if 0 < priority then
      { trace := [Effect.setState value, Effect.pushBare (pyLower attr.name)],
        attr := attr, raised := fails (Effect.pushBare (pyLower attr.name)) }
    else { trace := [Effect.setState value], attr := attr, raised := false }
  else if pyLower attr.name = "status" then
    if fails (Effect.setStatus value) then
      { trace := [Effect.setStatus value], attr := attr, raised := true }
    else if 0 < priority then
      { trace := [Effect.setStatus value, Effect.pushBare (pyLower attr.name)],
        attr := attr, raised := fails (Effect.pushBare (pyLower attr.name)) }
    else { trace := [Effect.setStatus value], attr := attr, raised := false }
  else if attr.encoded then
    match value with
    | SVal.encoded fmt data =>
      if 0 < priority then
        { trace := [Effect.pushVal (pyLower attr.name) [SVal.str fmt, SVal.str data]
            (some (timestamp.getD now)) (some (quality.getD AttrQuality.ATTR_VALID))],
          attr := attr,
          raised := fails (Effect.pushVal (pyLower attr.name) [SVal.str fmt, SVal.str data]
            (some (timestamp.getD now)) (some (quality.getD AttrQuality.ATTR_VALID))) }
      else
        { trace := [Effect.cacheSet (pyLower attr.name) [SVal.str fmt, SVal.str data]
            (timestamp.getD now) (quality.getD AttrQuality.ATTR_VALID)],
          attr := { attr with cache := some ⟨[SVal.str fmt, SVal.str data],
            timestamp.getD now, quality.getD AttrQuality.ATTR_VALID⟩ },
          raised := false }
    | _ => { trace := [], attr := attr, raised := true }
  else
    if 0 < priority then
      { trace := [Effect.pushVal (pyLower attr.name) [value]
          (some (timestamp.getD now)) (some (quality.getD AttrQuality.ATTR_VALID))],
        attr := attr,
        raised := fails (Effect.pushVal (pyLower attr.name) [value]
          (some (timestamp.getD now)) (some (quality.getD AttrQuality.ATTR_VALID))) }
    else
      { trace := [Effect.cacheSet (pyLower attr.name) [value]
          (timestamp.getD now) (quality.getD AttrQuality.ATTR_VALID)],
        attr := { attr with cache := some ⟨[value],
          timestamp.getD now, quality.getD AttrQuality.ATTR_VALID⟩ },
        raised := false }

/-- The `try:` body of `SardanaDevice._set_attribute_push`: the
`error is not None and fire_event` branch, then `pushMain`. -/
def pushBody (fails : Effect → Bool) (now : Nat) (attr : AttrInfo)
    (value : SVal) (timestamp : Option Nat) (quality : Option AttrQuality)
    (error : Option String) (priority : Int) : BOut :=
  match error with
  | some err =>
    if 0 < priority then
      { trace := [Effect.pushErr (pyLower attr.name) err], attr := attr,
        raised := fails (Effect.pushErr (pyLower attr.name) err) }
    else pushMain fails now attr value timestamp quality priority
  | none => pushMain fails now attr value timestamp quality priority

/-- Embedding of `SardanaDevice._set_attribute_push`: the recover protocol
(`priority > 1 and attr.is_check_change_criteria()` disables criteria
checking, the `finally:` clause re-enables it on every exit path)
wrapped around the push body. -/
def _set_attribute_push (fails : Effect → Bool) (now : Nat) (attr : AttrInfo)
    (value : SVal) (timestamp : Option Nat) (quality : Option AttrQuality)
    (error : Option String) (priority : Int) : BOut :=
  if 1 < priority ∧ attr.check_change_criteria = true then
    let out := pushBody fails now { attr with check_change_criteria := false }
        value timestamp quality error priority
    { trace := Effect.setChangeEvent attr.name false ::
        (out.trace ++ [Effect.setChangeEvent attr.name true]),
      attr := { out.attr with check_change_criteria := true },
      raised := out.raised }
  else
    pushBody fails now attr value timestamp quality error priority

/-- Embedding of `SardanaDevice.set_attribute_push`: `if priority > 0 and not synch`
the device lock `tango_lock` is held around `_set_attribute_push`
(the `with` statement releases it on both exit paths); otherwise
`_set_attribute_push` runs without the lock. -/
def set_attribute_push (fails : Effect → Bool) (now : Nat) (attr : AttrInfo)
    (value : SVal) (timestamp : Option Nat) (quality : Option AttrQuality)
    (error : Option String) (priority : Int) (synch : Bool) : BOut :=
  if 0 < priority ∧ synch = false then
    let out := _set_attribute_push fails now attr value timestamp quality error priority
    { out with trace := Effect.acquireLock :: (out.trace ++ [Effect.releaseLock]) }
  else
    _set_attribute_push fails now attr value timestamp quality error priority

/-- The Python-side per-device cache fields `self._state` / `self._status`. -/
structure Dev where
  _state : TgState
  _status : String
  deriving DecidableEq

/-- Result of `calculate_tango_state`. -/
structure CalcStateOut where
  dev : Dev
  trace : List Effect
  ret : TgState
  deriving DecidableEq

/-- Result of `calculate_tango_status`. -/
structure CalcStatusOut where
  dev : Dev
  trace : List Effect
  ret : String
  deriving DecidableEq

/-- Embedding of `SardanaDevice.calculate_tango_state`: always writes `self._state`,
calls `set_state` only when `update` is true, returns the mapped state. -/
def calculate_tango_state (dev : Dev) (ctrl_state : CtrlState) (update : Bool) :
    CalcStateOut :=
  let state := to_tango_state ctrl_state
  { dev := { dev with _state := state },
    trace := if update then [Effect.setState (SVal.tango state)] else [],
    ret := state }

/-- Embedding of `SardanaDevice.calculate_tango_status`: always writes `self._status`,
calls `set_status` only when `update` is true, returns the status. -/
def calculate_tango_status (dev : Dev) (ctrl_status : String) (update : Bool) :
    CalcStatusOut :=
  { dev := { dev with _status := ctrl_status },
    trace := if update then [Effect.setStatus (SVal.str ctrl_status)] else [],
    ret := ctrl_status }

/-! ## Controller (src/src/sardana/tango/pool/Controller.py) -/

/-- A sardana event type as delivered to the listener bridge. -/
structure EventType where
  name : String
  priority : Int

/-- Result of `Controller.on_controller_changed`: the effect trace, the
resolved attribute handle on exit (`none` when the name lookup failed and
the event was ignored), and whether an exception propagated. -/
structure BridgeOut where
  trace : List Effect
  attr : Option AttrInfo
  raised : Bool

/-- The `try:` body of `Controller.on_controller_changed`: translates and
sets state/status, then pushes a change event with the value in every
branch. `to_tango_state` on a non-state value raises (modelled by the
`none` arm). Returns the trace and whether the body raised. -/
def bridgeBody (fails : Effect → Bool) (name : String) (event_value : SVal) :
    List Effect × Bool :=
  if name = "state" then
    match event_value with
    | SVal.ctrl s =>
      if fails (Effect.setState (SVal.tango (to_tango_state s))) then
        ([Effect.setState (SVal.tango (to_tango_state s))], true)
      else
        ([Effect.setState (SVal.tango (to_tango_state s)),
          Effect.pushVal name [SVal.tango (to_tango_state s)] none none],
         fails (Effect.pushVal name [SVal.tango (to_tango_state s)] none none))
    | _ => ([], true)
  else if name = "status" then
    if fails (Effect.setStatus event_value) then
      ([Effect.setStatus event_value], true)
    else
      ([Effect.setStatus event_value, Effect.pushVal name [event_value] none none],
       fails (Effect.pushVal name [event_value] none none))
  else
    ([Effect.pushVal name [event_value] none none],
     fails (Effect.pushVal name [event_value] none none))

/-- Embedding of `Controller.on_controller_changed`: resolves the attribute by name
(ignoring the event on a `DevFailed` lookup miss), disables the
check-change criteria unconditionally when `event_type.priority > 1`,
runs the body, and in `finally:` re-enables the criteria when it had
been disabled. -/
def on_controller_changed (fails : Effect → Bool) (attrs : List AttrInfo)
    (event_type : EventType) (event_value : SVal) : BridgeOut :=
  match attrs.find? (fun a => pyLower a.name == pyLower event_type.name) with
  | none => { trace := [], attr := none, raised := false }
  | some attr =>
    let body := bridgeBody fails event_type.name event_value
    if 1 < event_type.priority then
      { trace := Effect.setChangeEvent attr.name false ::
          (body.1 ++ [Effect.setChangeEvent attr.name true]),
        attr := some { attr with check_change_criteria := true },
        raised := body.2 }
    else
      { trace := body.1, attr := some attr, raised := body.2 }

/-- A live controller object owned by the parent pool. `obj_id` is the
object's identity; `reinit_count` counts `re_init` calls on it. -/
structure CtrlObj where
  obj_id : Nat
  reinit_count : Nat
  deriving DecidableEq

/-- The controller device's `self.ctrl` slot (`self.element`). -/
structure CtrlDev where
  ctrl : Option CtrlObj
  deriving DecidableEq

/-- The parent pool collaborator, counting `create_controller` calls. -/
structure PoolSt where
  create_count : Nat
  deriving DecidableEq

/-- Result of `Controller.init_device`. -/
structure InitOut where
  dev : CtrlDev
  pool : PoolSt
  deriving DecidableEq

/-- Modelled from the spec: the parent pool's `create_controller` is outside
the provided source files (`sardana.pool`). Per spec §6 it constructs and
returns a fresh Controller object; the model gives each construction a
fresh identity and counts the calls. -/
def create_controller (p : PoolSt) : CtrlObj × PoolSt :=
  ({ obj_id := p.create_count, reinit_count := 0 },
   { create_count := p.create_count + 1 })

/-- Modelled from the spec: `SardanaElement.re_init` is outside the provided
source files. Per spec §4.5 it re-initializes the existing controller object
in place, preserving its identity; the model records the call. -/
def re_init (c : CtrlObj) : CtrlObj := { c with reinit_count := c.reinit_count + 1 }

/-- Embedding of `Controller.init_device`, the controller-creation branch: when
`self.ctrl` is `None` a controller is created via the parent pool and
stored; otherwise the existing controller's `re_init` is called and no
new controller is constructed.  (`PoolDevice.init_device` and the event
declarations do not touch `self.ctrl` or the pool's controller registry.) -/
def init_device (d : CtrlDev) (p : PoolSt) : InitOut :=
  match d.ctrl with
  | none =>
    let cp := create_controller p
    { dev := { ctrl := some cp.1 }, pool := cp.2 }
  | some c =>
    { dev := { ctrl := some (re_init c) }, pool := p }

/-! ### Controller property resolution (`Controller._get_ctrl_properties`) -/

/-- Declared property data types (`sardana.DataType`). -/
inductive PDataType where
  | Integer | Double | Boolean | PString
  deriving DecidableEq

/-- Declared property data formats (`sardana.DataFormat`). -/
inductive PDataFormat where
  | Scalar | OneD
  deriving DecidableEq

/-- A type-coerced property element: result of applying `int` / `float` /
`to_bool` / `str` to one string from the persistence store. A parsed
double is kept as its accepted literal text. -/
inductive PropScalar where
  | pstr (s : String)
  | pint (n : Int)
  | pdouble (s : String)
  | pbool (b : Bool)
  deriving DecidableEq

/-- A resolved property value: a scalar-unwrapped element, a coerced list,
or a declared default taken verbatim. -/
inductive PropValue where
  | scalar (v : PropScalar)
  | listv (vs : List PropScalar)
  | dflt (raw : List String)
  deriving DecidableEq

/-- One entry of `ctrl_info.ctrl_properties`. -/
structure PropInfo where
  name : String
  default_value : Option PropValue
  dtype : PDataType
  dformat : PDataFormat

/-- The helper `to_bool` from Controller.py: `s.lower() == "true"`. -/
def to_bool (s : String) : Bool := pyLower s == "true"

/-- Whether a string is accepted by Python's `float()` (digits with an
optional sign and an optional fractional part); a rejected string makes
`float()` raise. -/
def floatOk (s : String) : Bool :=
  let l := match s.data with
    | '-' :: rest => rest
    | '+' :: rest => rest
    | l => l
  match l.splitOn '.' with
  | [a] => !a.isEmpty && a.all Char.isDigit
  | [a, b] => !a.isEmpty && a.all Char.isDigit && !b.isEmpty && b.all Char.isDigit
  | _ => false

/-- The coercion `op` chosen per declared dtype; `none` models the Python
exception raised by `int()` / `float()` on unparseable text. -/
def convert_prop (dtype : PDataType) (s : String) : Option PropScalar :=
  match dtype with
  | .Integer => (s.toInt?).map PropScalar.pint
  | .Double => if floatOk s then some (PropScalar.pdouble s) else none
  | .Boolean => some (PropScalar.pbool (to_bool s))
  | .PString => some (PropScalar.pstr s)

/-- Python `map(op, prop_value)`: coerce every element, raising on the first
failure. -/
def convert_list (dtype : PDataType) (vs : List String) : Option (List PropScalar) :=
  vs.mapM (convert_prop dtype)

/-- Python's `", ".join(...)`. -/
def joinComma : List String → String
  | [] => ""
  | [x] => x
  | x :: xs => x ++ ", " ++ joinComma xs

/-- The property-resolution loop of `_get_ctrl_properties`: per property,
an empty store value means the declared default is used and the name is
recorded as missing when there is no default; a non-empty value is
type-coerced and scalar-unwrapped. Returns (ret, missing_props, raised). -/
def resolveProps (db : String → List String) :
    List PropInfo → List (String × Option PropValue) × List String × Bool
  | [] => ([], [], false)
  | info :: rest =>
    if (db info.name).isEmpty then
      ((info.name, info.default_value) :: (resolveProps db rest).1,
       ((if info.default_value.isNone then [info.name] else [])
          ++ (resolveProps db rest).2.1,
        (resolveProps db rest).2.2))
    else
      match convert_list info.dtype (db info.name) with
      | none => ([], [], true)
      | some ps =>
        ((info.name,
          some (if info.dformat = PDataFormat.Scalar
            then PropValue.scalar (ps.headD (PropScalar.pstr ""))
            else PropValue.listv ps)) :: (resolveProps db rest).1,
         ((resolveProps db rest).2.1, (resolveProps db rest).2.2))

/-- Result of `_get_ctrl_properties`: the resolved mapping, the
state/status effects, and whether an exception propagated. -/
structure PropsOut where
  ret : List (String × Option PropValue)
  trace : List Effect
  raised : Bool

/-- Embedding of `Controller._get_ctrl_properties`: a failed class-info lookup returns
`{}`; otherwise properties are fetched from the persistence store and
resolved, and when any required property is missing (empty store value,
no default) the device is driven to ALARM with a status listing the
missing names — without raising. -/
def _get_ctrl_properties (db : String → List String)
    (infos? : Option (List PropInfo)) : PropsOut :=
  match infos? with
  | none => { ret := [], trace := [], raised := false }
  | some infos =>
    if (resolveProps db infos).2.2 then { ret := [], trace := [], raised := true }
    else if (resolveProps db infos).2.1.isEmpty then
      { ret := (resolveProps db infos).1, trace := [], raised := false }
    else
      { ret := (resolveProps db infos).1,
        trace := [Effect.setState (SVal.tango TgState.ALARM),
          Effect.setStatus (SVal.str
            ("Controller has missing properties: "
              ++ joinComma (resolveProps db infos).2.1))],
        raised := false }

/-! ## Theorems -/

/-- C10: `calculate_tango_state` (resp. `calculate_tango_status`) overwrites
the device's cached `_state` (resp. `_status`) field with the mapped value
even when `update` is false, returns the mapped value, and makes the
bus-facing `set_state` (resp. `set_status`) call exactly when `update` is
true. -/
theorem C10_calculate_state_status_cache (dev : Dev) (cs : CtrlState)
    (st : String) (u1 u2 : Bool) :
    (calculate_tango_state dev cs u1).dev._state = to_tango_state cs ∧
    (calculate_tango_state dev cs u1).ret = to_tango_state cs ∧
    (calculate_tango_state dev cs u1).trace =
      (if u1 then [Effect.setState (SVal.tango (to_tango_state cs))] else []) ∧
    (calculate_tango_status dev st u2).dev._status = st ∧
    (calculate_tango_status dev st u2).ret = st ∧
    (calculate_tango_status dev st u2).trace =
      (if u2 then [Effect.setStatus (SVal.str st)] else []) :=
  ⟨rfl, rfl, rfl, rfl, rfl, rfl⟩

/-- C6: starting from a device with no live controller, the first
`init_device` creates exactly one controller and the second re-inits that
same object (same identity, `re_init` called) without any further
`create_controller` call, so the pool's creation count stays at one across
both calls. -/
theorem C6_reinit_preserves_controller (d : CtrlDev) (p : PoolSt)
    (h : d.ctrl = none) :
    (init_device (init_device d p).dev (init_device d p).pool).pool.create_count
      = p.create_count + 1 ∧
    ∃ c, (init_device d p).dev.ctrl = some c ∧
      (init_device (init_device d p).dev (init_device d p).pool).dev.ctrl
        = some (re_init c) ∧
      (re_init c).obj_id = c.obj_id := by
  simp [init_device, h, create_controller, re_init]

/-- Witness for C6 at a concrete fresh device and pool. -/
theorem C6_reinit_preserves_controller_witness :
    (init_device (init_device ⟨none⟩ ⟨0⟩).dev (init_device ⟨none⟩ ⟨0⟩).pool).pool.create_count
      = 0 + 1 ∧
    ∃ c, (init_device ⟨none⟩ ⟨0⟩).dev.ctrl = some c ∧
      (init_device (init_device ⟨none⟩ ⟨0⟩).dev (init_device ⟨none⟩ ⟨0⟩).pool).dev.ctrl
        = some (re_init c) ∧
      (re_init c).obj_id = c.obj_id :=
  C6_reinit_preserves_controller ⟨none⟩ ⟨0⟩ rfl

/-- C2: for an attribute whose check-change-criteria flag is enabled, after
`_set_attribute_push` with priority > 1 returns — for every bus-failure
oracle, i.e. whether the push succeeded or raised — the flag is enabled
again: the `finally:` clause restores it on every exit path. -/
theorem C2_recover_restores_criteria (fails : Effect → Bool) (now : Nat)
    (attr : AttrInfo) (value : SVal) (ts : Option Nat) (q : Option AttrQuality)
    (error : Option String) (priority : Int)
    (hc : attr.check_change_criteria = true) (hp : 1 < priority) :
    (_set_attribute_push fails now attr value ts q error priority).attr.check_change_criteria
      = true := by
  simp only [_set_attribute_push]
  rw [if_pos ⟨hp, hc⟩]

/-- Witness for C2 at a concrete attribute, with every bus call failing. -/
theorem C2_recover_restores_criteria_witness :
    (_set_attribute_push (fun _ => true) 0
      { name := "position", check_change_criteria := true, encoded := false, cache := none }
      (SVal.int 7) none none none 2).attr.check_change_criteria = true :=
  C2_recover_restores_criteria (fun _ => true) 0
    { name := "position", check_change_criteria := true, encoded := false, cache := none }
    (SVal.int 7) none none none 2 rfl (by decide)

/-- C8: a push with an error and priority > 0 makes exactly one
notification, carrying only the error, and leaves the attribute's cache
slot unchanged. -/
theorem C8_error_push_only_error (fails : Effect → Bool) (now : Nat)
    (attr : AttrInfo) (value : SVal) (ts : Option Nat) (q : Option AttrQuality)
    (err : String) (priority : Int) (hp : 0 < priority) :
    (_set_attribute_push fails now attr value ts q (some err) priority).trace.filter
        Effect.isPush = [Effect.pushErr (pyLower attr.name) err] ∧
    (_set_attribute_push fails now attr value ts q (some err) priority).attr.cache
      = attr.cache := by
  simp only [_set_attribute_push, pushBody]
  split
  · simp [if_pos hp, Effect.isPush]
  · simp [if_pos hp, Effect.isPush]

/-- Witness for C8 at a concrete attribute and error. -/
theorem C8_error_push_only_error_witness :
    (_set_attribute_push (fun _ => false) 0
      { name := "Position", check_change_criteria := true, encoded := false, cache := none }
      SVal.none none none (some "motor stalled") 1).trace.filter Effect.isPush
      = [Effect.pushErr "position" "motor stalled"] ∧
    (_set_attribute_push (fun _ => false) 0
      { name := "Position", check_change_criteria := true, encoded := false, cache := none }
      SVal.none none none (some "motor stalled") 1).attr.cache = none :=
  C8_error_push_only_error (fun _ => false) 0
    { name := "Position", check_change_criteria := true, encoded := false, cache := none }
    SVal.none none none "motor stalled" 1 (by decide)

/-- C5: a push with priority 0 on an ordinary (non-state, non-status,
non-encoded) attribute with no error makes no notification call, does not
raise, and updates the attribute's cache slot with the given value and the
defaulted timestamp and quality. -/
theorem C5_priority_zero_cache_only (fails : Effect → Bool) (now : Nat)
    (attr : AttrInfo) (value : SVal) (ts : Option Nat) (q : Option AttrQuality)
    (h1 : pyLower attr.name ≠ "state") (h2 : pyLower attr.name ≠ "status")
    (h3 : attr.encoded = false) :
    (∀ e ∈ (_set_attribute_push fails now attr value ts q none 0).trace,
        e.isPush = false) ∧
    (_set_attribute_push fails now attr value ts q none 0).attr.cache
      = some ⟨[value], ts.getD now, q.getD AttrQuality.ATTR_VALID⟩ ∧
    (_set_attribute_push fails now attr value ts q none 0).raised = false := by
  simp [_set_attribute_push, pushBody, pushMain, h1, h2, h3, Effect.isPush]

/-- Witness for C5 at a concrete ordinary attribute. -/
theorem C5_priority_zero_cache_only_witness :
    (∀ e ∈ (_set_attribute_push (fun _ => false) 5
        { name := "Position", check_change_criteria := true, encoded := false, cache := none }
        (SVal.int 12) none none none 0).trace, e.isPush = false) ∧
    (_set_attribute_push (fun _ => false) 5
        { name := "Position", check_change_criteria := true, encoded := false, cache := none }
        (SVal.int 12) none none none 0).attr.cache
      = some ⟨[SVal.int 12], 5, AttrQuality.ATTR_VALID⟩ ∧
    (_set_attribute_push (fun _ => false) 5
        { name := "Position", check_change_criteria := true, encoded := false, cache := none }
        (SVal.int 12) none none none 0).raised = false :=
  C5_priority_zero_cache_only (fun _ => false) 5
    { name := "Position", check_change_criteria := true, encoded := false, cache := none }
    (SVal.int 12) none none (by decide) (by decide) rfl

/-- The body `pushMain` never touches the lock. -/
lemma acquireLock_not_mem_pushMain (fails : Effect → Bool) (now : Nat)
    (attr : AttrInfo) (value : SVal) (ts : Option Nat) (q : Option AttrQuality)
    (priority : Int) :
    Effect.acquireLock ∉ (pushMain fails now attr value ts q priority).trace := by
  unfold pushMain
  repeat' split
  all_goals simp

/-- The body `pushBody` never touches the lock. -/
lemma acquireLock_not_mem_pushBody (fails : Effect → Bool) (now : Nat)
    (attr : AttrInfo) (value : SVal) (ts : Option Nat) (q : Option AttrQuality)
    (error : Option String) (priority : Int) :
    Effect.acquireLock ∉ (pushBody fails now attr value ts q error priority).trace := by
  unfold pushBody
  repeat' split
  all_goals first
    | simp
    | apply acquireLock_not_mem_pushMain

/-- The publisher `_set_attribute_push` never touches the lock itself. -/
lemma acquireLock_not_mem_inner (fails : Effect → Bool) (now : Nat)
    (attr : AttrInfo) (value : SVal) (ts : Option Nat) (q : Option AttrQuality)
    (error : Option String) (priority : Int) :
    Effect.acquireLock ∉ (_set_attribute_push fails now attr value ts q error priority).trace := by
  unfold _set_attribute_push
  split
  · simp only [List.mem_cons, List.mem_append, List.mem_singleton]
    push_neg
    refine ⟨by simp, ?_, by simp⟩
    apply acquireLock_not_mem_pushBody
  · apply acquireLock_not_mem_pushBody

/-- C1 as stated is false on the code: a synchronous push with priority 1
to an ordinary attribute makes a bus-facing call while `tango_lock` is
never acquired — the code locks only when `priority > 0 and not synch`. -/
theorem C1_sync_push_skips_lock :
    (∃ e ∈ (set_attribute_push (fun _ => false) 0
        { name := "position", check_change_criteria := true, encoded := false, cache := none }
        (SVal.int 5) none none none 1 true).trace, e.busFacing = true) ∧
    Effect.acquireLock ∉ (set_attribute_push (fun _ => false) 0
        { name := "position", check_change_criteria := true, encoded := false, cache := none }
        (SVal.int 5) none none none 1 true).trace := by
  decide

/-- C1 amended: `set_attribute_push` acquires the device lock before any
bus-facing call exactly when `priority > 0` and `synch` is false (the
asynchronous worker path); a synchronous push never acquires the lock. -/
theorem C1_lock_only_when_async (fails : Effect → Bool) (now : Nat)
    (attr : AttrInfo) (value : SVal) (ts : Option Nat) (q : Option AttrQuality)
    (error : Option String) (priority : Int) (synch : Bool) :
    (0 < priority → synch = false →
      (set_attribute_push fails now attr value ts q error priority synch).trace.head?
        = some Effect.acquireLock) ∧
    (synch = true →
      Effect.acquireLock ∉
        (set_attribute_push fails now attr value ts q error priority synch).trace) := by
  constructor
  · intro hp hs
    simp [set_attribute_push, if_pos (And.intro hp hs)]
  · intro hs
    have hcond : ¬ (0 < priority ∧ synch = false) := by simp [hs]
    simp only [set_attribute_push, if_neg hcond]
    apply acquireLock_not_mem_inner

/-- Witness for C1 (amended) at a concrete asynchronous priority-1 push:
the lock is the first effect. -/
theorem C1_lock_only_when_async_witness :
    (set_attribute_push (fun _ => false) 0
        { name := "position", check_change_criteria := true, encoded := false, cache := none }
        (SVal.int 5) none none none 1 false).trace.head?
      = some Effect.acquireLock :=
  (C1_lock_only_when_async (fun _ => false) 0
      { name := "position", check_change_criteria := true, encoded := false, cache := none }
      (SVal.int 5) none none none 1 false).1 (by decide) rfl

/-- C3 as stated is false on the code: `on_controller_changed` pushes a
change notification even for an event with priority 0 — there is no
`fire_event` guard in the listener bridge. -/
theorem C3_priority_zero_still_pushes :
    ∃ e ∈ (on_controller_changed (fun _ => false)
        [{ name := "velocity", check_change_criteria := true, encoded := false, cache := none }]
        { name := "velocity", priority := 0 } (SVal.int 3)).trace, e.isPush = true := by
  decide

/-- C3 amended: `on_controller_changed` issues exactly one
`push_change_event` for every event whose name resolves to an attribute
(with a well-formed state value when the event is `state`), regardless of
`event_type.priority` — including priority 0 — when no bus call fails. -/
theorem C3_bridge_always_pushes (attrs : List AttrInfo) (event_type : EventType)
    (event_value : SVal) (attr : AttrInfo)
    (hfind : attrs.find? (fun a => pyLower a.name == pyLower event_type.name) = some attr)
    (hv : event_type.name = "state" → ∃ s, event_value = SVal.ctrl s) :
    ((on_controller_changed (fun _ => false) attrs event_type event_value).trace.filter
      Effect.isPush).length = 1 := by
  have hbody : ((bridgeBody (fun _ => false) event_type.name event_value).1.filter
      Effect.isPush).length = 1 := by
    unfold bridgeBody
    by_cases hst : event_type.name = "state"
    · obtain ⟨s, rfl⟩ := hv hst
      simp [hst, Effect.isPush]
    · by_cases hss : event_type.name = "status"
      · simp [if_neg hst, hss, Effect.isPush]
      · simp [if_neg hst, if_neg hss, Effect.isPush]
  simp only [on_controller_changed, hfind]
  by_cases hp : 1 < event_type.priority
  · simpa [if_pos hp, Effect.isPush, List.filter_append] using hbody
  · simpa [if_neg hp] using hbody

/-- Witness for C3 (amended) at a concrete priority-0 event. -/
theorem C3_bridge_always_pushes_witness :
    ((on_controller_changed (fun _ => false)
        [{ name := "velocity", check_change_criteria := true, encoded := false, cache := none }]
        { name := "velocity", priority := 0 } (SVal.int 3)).trace.filter
      Effect.isPush).length = 1 :=
  C3_bridge_always_pushes
    [{ name := "velocity", check_change_criteria := true, encoded := false, cache := none }]
    { name := "velocity", priority := 0 } (SVal.int 3)
    { name := "velocity", check_change_criteria := true, encoded := false, cache := none }
    (by decide) (fun h => absurd h (by decide))

/-- C9 as stated is false on the code: the bridge disables the
check-change criteria unconditionally for priority > 1 (without the
publisher's `is_check_change_criteria()` guard) and always re-enables it,
so an attribute whose criteria checking was disabled before the event is
left with criteria checking enabled afterwards. -/
theorem C9_disabled_attr_left_enabled :
    (on_controller_changed (fun _ => false)
        [{ name := "position", check_change_criteria := false, encoded := false, cache := none }]
        { name := "position", priority := 2 } (SVal.int 1)).attr
      = some { name := "position", check_change_criteria := true, encoded := false,
               cache := none } := by
  decide

/-- C9 amended: for every event with priority > 1 whose name resolves to
an attribute, `on_controller_changed` leaves the attribute's
check-change-criteria flag enabled on exit regardless of its prior state —
unlike the publisher's recover protocol, which restores the prior state. -/
theorem C9_bridge_always_reenables (fails : Effect → Bool) (attrs : List AttrInfo)
    (event_type : EventType) (event_value : SVal) (attr : AttrInfo)
    (hfind : attrs.find? (fun a => pyLower a.name == pyLower event_type.name) = some attr)
    (hp : 1 < event_type.priority) :
    (on_controller_changed fails attrs event_type event_value).attr
      = some { attr with check_change_criteria := true } := by
  unfold on_controller_changed
  rw [hfind]
  simp [if_pos hp]

/-- Witness for C9 (amended) at a concrete priority-2 event on an
attribute whose criteria checking is disabled. -/
theorem C9_bridge_always_reenables_witness :
    (on_controller_changed (fun _ => false)
        [{ name := "velocity", check_change_criteria := false, encoded := false, cache := none }]
        { name := "velocity", priority := 2 } (SVal.int 1)).attr
      = some { name := "velocity", check_change_criteria := true, encoded := false,
               cache := none } :=
  C9_bridge_always_reenables (fun _ => false)
    [{ name := "velocity", check_change_criteria := false, encoded := false, cache := none }]
    { name := "velocity", priority := 2 } (SVal.int 1)
    { name := "velocity", check_change_criteria := false, encoded := false, cache := none }
    (by decide) (by decide)

/-- C4: the publisher's dedicated state branch pushes a bare change event
(name only), but the listener bridge's state branch pushes an explicit
value payload — `push_change_event("state", event_value)` — which is
exactly the pattern the code's own comment in `_set_attribute_push`
documents as leaking memory in the underlying Tango versions. Evaluation
at the failing input (a priority-1 `state` event through the bridge). -/
theorem C4_bridge_state_push_carries_value :
    (Effect.pushVal "state" [SVal.tango TgState.MOVING] none none ∈
      (on_controller_changed (fun _ => false)
        [{ name := "state", check_change_criteria := true, encoded := false, cache := none }]
        { name := "state", priority := 1 } (SVal.ctrl CtrlState.Moving)).trace) ∧
    ((_set_attribute_push (fun _ => false) 0
        { name := "State", check_change_criteria := true, encoded := false, cache := none }
        (SVal.tango TgState.MOVING) none none none 1).trace.filter Effect.isPush
      = [Effect.pushBare "state"]) := by
  decide

/-- Every member of a list of names occurs as a contiguous substring of
Python's `", ".join` of that list. -/
lemma mem_data_infix_joinComma (s : String) (l : List String) (h : s ∈ l) :
    s.data <:+: (joinComma l).data := by
  induction l with
  | nil => cases h
  | cons x xs ih =>
    cases xs with
    | nil =>
      rcases List.mem_singleton.mp h with rfl
      exact List.infix_refl _
    | cons y ys =>
      rcases List.mem_cons.mp h with rfl | hmem
      · refine ⟨[], (", ").data ++ (joinComma (y :: ys)).data, ?_⟩
        simp [joinComma, String.data_append]
      · obtain ⟨u, v, huv⟩ := ih hmem
        refine ⟨(x.data ++ (", ").data) ++ u, v, ?_⟩
        simp only [joinComma, String.data_append]
        rw [← huv]
        simp [List.append_assoc]

/-- A required property with an empty store value and no default ends up
in the `missing_props` list of the resolution loop, provided no other
property's coercion raised. -/
lemma missing_mem_resolveProps (db : String → List String) (infos : List PropInfo)
    (m : PropInfo) (hm : m ∈ infos) (hv : db m.name = []) (hd : m.default_value = none)
    (hr : (resolveProps db infos).2.2 = false) :
    m.name ∈ (resolveProps db infos).2.1 := by
  induction infos with
  | nil => cases hm
  | cons info rest ih =>
    rcases List.mem_cons.mp hm with rfl | hmem
    · have he : (db m.name).isEmpty = true := by simp [hv]
      simp [resolveProps, he, hd]
    · by_cases he : (db info.name).isEmpty
      · simp only [resolveProps, if_pos he] at hr ⊢
        exact List.mem_append_right _ (ih hmem hr)
      · simp only [resolveProps, if_neg he] at hr ⊢
        cases hc : convert_list info.dtype (db info.name) with
        | none => rw [hc] at hr; simp at hr
        | some ps => rw [hc] at hr; exact ih hmem hr

/-- C7: when a required controller property has no value in the store and
no declared default (and every present property value coerces without
raising), `_get_ctrl_properties` does not raise; it sets the device state
to ALARM and a status string containing the missing property's name. -/
theorem C7_missing_props_alarm (db : String → List String) (infos : List PropInfo)
    (m : PropInfo) (hm : m ∈ infos) (hv : db m.name = []) (hd : m.default_value = none)
    (hok : (resolveProps db infos).2.2 = false) :
    (_get_ctrl_properties db (some infos)).raised = false ∧
    Effect.setState (SVal.tango TgState.ALARM)
      ∈ (_get_ctrl_properties db (some infos)).trace ∧
    ∃ status, Effect.setStatus (SVal.str status)
        ∈ (_get_ctrl_properties db (some infos)).trace ∧
      m.name.data <:+: status.data := by
  have hmem := missing_mem_resolveProps db infos m hm hv hd hok
  have hne : (resolveProps db infos).2.1.isEmpty = false := by
    cases hlist : (resolveProps db infos).2.1 with
    | nil => rw [hlist] at hmem; cases hmem
    | cons a b => simp
  simp only [_get_ctrl_properties, hok, hne, Bool.false_eq_true, if_false]
  refine ⟨by simp, by simp, ?_⟩
  refine ⟨"Controller has missing properties: "
    ++ joinComma (resolveProps db infos).2.1, by simp, ?_⟩
  rw [String.data_append]
  obtain ⟨u, v, huv⟩ := mem_data_infix_joinComma m.name _ hmem
  exact ⟨("Controller has missing properties: ").data ++ u, v,
    by rw [← huv]; simp [List.append_assoc]⟩

/-- Witness for C7 at a concrete schema with one required string property
`host` absent from the store. -/
theorem C7_missing_props_alarm_witness :
    (_get_ctrl_properties (fun _ => [])
      (some [⟨"host", none, PDataType.PString, PDataFormat.Scalar⟩])).raised = false ∧
    Effect.setState (SVal.tango TgState.ALARM)
      ∈ (_get_ctrl_properties (fun _ => [])
        (some [⟨"host", none, PDataType.PString, PDataFormat.Scalar⟩])).trace ∧
    ∃ status, Effect.setStatus (SVal.str status)
        ∈ (_get_ctrl_properties (fun _ => [])
          (some [⟨"host", none, PDataType.PString, PDataFormat.Scalar⟩])).trace ∧
      ("host").data <:+: status.data :=
  C7_missing_props_alarm (fun _ => [])
    [⟨"host", none, PDataType.PString, PDataFormat.Scalar⟩]
    ⟨"host", none, PDataType.PString, PDataFormat.Scalar⟩
    (List.mem_singleton.mpr rfl) rfl rfl rfl

end Sardana
